import Mathlib

/-!
Shallow embedding of `src/substrate/client/executor/wasmedge/src/host.rs`:
the host-side bridge exposing memory access, allocation and nested-sandbox
operations to guest code.  External collaborators (the WasmEdge engine, the
SCALE codec, the bump allocator, `sc_executor_common::sandbox::Store`) are
out of scope of the source file; where their behaviour decides an outcome
they are modelled from the spec (doc comments say so) or passed in as
universally quantified oracle parameters.
-/

set_option autoImplicit false

namespace WasmedgeHost

/-- Modelled from the spec: the stable numeric status codes of §4.3
(`sp_sandbox::env`, not under `src/`): OK, OUT_OF_BOUNDS, EXECUTION, MODULE.
The spec fixes their identities and distinctness, not their numeric values;
the values below follow the usual convention (small negative `i32`s cast to
`u32`). -/
def ERR_OK : Nat := 0

/-- Modelled from the spec: out-of-bounds status code (distinct from the others). -/
def ERR_OUT_OF_BOUNDS : Nat := 4294967295

/-- Modelled from the spec: execution-failure status code. -/
def ERR_EXECUTION : Nat := 4294967294

/-- Modelled from the spec: module-failure status code. -/
def ERR_MODULE : Nat := 4294967293

/-- A linear memory (outer or nested) as its byte contents. -/
abbrev Mem := List UInt8

/-- Modelled from the spec (§4.1 Linear Memory Accessor; `util::read_memory`
of this repository is not under `src/`): `read(addr, len)` succeeds iff
`addr + len` does not exceed the memory size, returning the `len` bytes at
`addr`. -/
def read_memory (mem : Mem) (addr len : Nat) : Except String Mem :=
  if addr + len ≤ mem.length then .ok ((mem.drop addr).take len)
  else .error "memory read is out of range"

/-- Modelled from the spec (§4.1; `util::write_memory_from` of this
repository is not under `src/`): `write(addr, data)` succeeds iff
`addr + data.length` does not exceed the memory size, replacing exactly the
bytes at `[addr, addr + data.length)`. -/
def write_memory_from (mem : Mem) (addr : Nat) (data : Mem) : Except String Mem :=
  if addr + data.length ≤ mem.length then
    .ok (mem.take addr ++ data ++ mem.drop (addr + data.length))
  else .error "memory write is out of range"

/-- Modelled from the spec (§4.4 MemoryTransfer of the sandbox store, not
under `src/`): reading a nested sandboxed memory has the same bounds
contract as §4.1. -/
def SandboxedMemory.read (m : Mem) (offset len : Nat) : Except String Mem :=
  read_memory m offset len

/-- Modelled from the spec: writing a nested sandboxed memory, same bounds
contract as §4.1. -/
def SandboxedMemory.write_from (m : Mem) (offset : Nat) (data : Mem) : Except String Mem :=
  write_memory_from m offset data

/-- A registered, fully instantiated nested instance: an identifying tag and
the dispatch thunk captured at creation time (`T` is the engine's function
reference type, opaque here). -/
structure SandboxInstance (T : Type) where
  tag : Nat
  dispatch_thunk : T
  deriving DecidableEq

/-- Modelled from the spec (§3 `SandboxStore`, `sc_executor_common::sandbox::Store`
is not under `src/`): registries from small integer ids to nested memories and
instances; ids are list indices, assigned monotonically; a torn-down entry
becomes `none` and its id is never reused. -/
structure Store (T : Type) where
  memories : List (Option Mem)
  instances : List (Option (SandboxInstance T))
  deriving DecidableEq

/-- Modelled from the spec (§8 handle validity): looking up a memory id fails
for an unregistered id. -/
def Store.memory {T : Type} (s : Store T) (memory_id : Nat) : Except String Mem :=
  match s.memories[memory_id]? with
  | some (some m) => .ok m
  | _ => .error "memory with the given id does not exist"

/-- Modelled from the spec (§8 handle validity): looking up an instance id
fails for an unregistered id. (`instance` is a Lean keyword, hence the name.) -/
def Store.instanceLookup {T : Type} (s : Store T) (instance_id : Nat) :
    Except String (SandboxInstance T) :=
  match s.instances[instance_id]? with
  | some (some i) => .ok i
  | _ => .error "instance with the given id does not exist"

/-- Modelled from the spec: the dispatch thunk captured for a registered
instance (stored by the sandbox store, not under `src/`). -/
def Store.dispatch_thunk {T : Type} (s : Store T) (instance_id : Nat) :
    Except String T :=
  match s.instances[instance_id]? with
  | some (some i) => .ok i.dispatch_thunk
  | _ => .error "instance with the given id does not exist"

/-- Replace the contents of the nested memory `id` (used by `memory_set`). -/
def Store.withMemory {T : Type} (s : Store T) (id : Nat) (m : Mem) : Store T :=
  { s with memories := s.memories.set id (some m) }

/-- A not-yet-registered instance produced by a successful instantiation
(`sc_executor_common::sandbox::UnregisteredInstance`). -/
structure UnregisteredInstance where
  tag : Nat
  deriving DecidableEq

/-- Modelled from the spec (§3: ids assigned monotonically, never reused):
registering appends the instance to the store and returns its index. -/
def UnregisteredInstance.register {T : Type} (u : UnregisteredInstance)
    (s : Store T) (thunk : T) : Nat × Store T :=
  (s.instances.length, { s with instances := s.instances ++ [some ⟨u.tag, thunk⟩] })

/-- `HostState` (`host.rs` lines 25-29): the sandbox store sits inside an
`Option` so it can be temporarily moved out; the allocator's internals are an
out-of-scope collaborator (spec §1) and no claim touches them, so the field
is kept only for shape. -/
structure HostState (T : Type) where
  sandbox_store : Option (Store T)
  allocator : Unit
  panic_message : Option String
  deriving DecidableEq

/-- `HostState::take_panic_message` (`host.rs` lines 44-46): takes the
message out, leaving `none`. Returns the message together with the updated
state (Rust mutates in place). -/
def take_panic_message {T : Type} (hs : HostState T) : Option String × HostState T :=
  (hs.panic_message, { hs with panic_message := none })

/-- `HostContext::register_panic_error_message` (`host.rs` lines 139-141):
stores the message in the host state's slot; total, no error and no panic. -/
def register_panic_error_message {T : Type} (hs : HostState T) (message : String) :
    HostState T :=
  { hs with panic_message := some message }

/-- Outcome of one embedded host call: either a normal return (`Ok`/`Err` of
the Rust `sp_wasm_interface::Result`) or a propagated panic. -/
inductive HostCall (α : Type) where
  | normal : Except String α → HostCall α
  | panicked : HostCall α

/-- `Sandbox::memory_get` (`host.rs` lines 145-168): read `buf_len` bytes of
the nested memory `memory_id` at `offset` and write them to the outer memory
at `buf_ptr`. Unregistered id is a hard error; either range failing its
bounds check yields `ERR_OUT_OF_BOUNDS` as an ordinary `Ok` value. An empty
store slot means the `expect` in `sandbox_store()` panics. Returns the
outcome and the (possibly updated) outer memory. -/
def memory_get {T : Type} (hs : HostState T) (memory : Mem)
    (memory_id offset buf_ptr buf_len : Nat) : HostCall Nat × Mem :=
  match hs.sandbox_store with
  | none => (.panicked, memory)
  | some store =>
    match store.memory memory_id with
    | .error e => (.normal (.error e), memory)
    | .ok sandboxed_memory =>
      let len := buf_len
      match SandboxedMemory.read sandboxed_memory offset len with
      | .error _ => (.normal (.ok ERR_OUT_OF_BOUNDS), memory)
      | .ok buffer =>
        match write_memory_from memory buf_ptr buffer with
        | .error _ => (.normal (.ok ERR_OUT_OF_BOUNDS), memory)
        | .ok memory2 => (.normal (.ok ERR_OK), memory2)

/-- `Sandbox::memory_set` (`host.rs` lines 170-191): read `val_len` bytes of
the outer memory at `val_ptr` and write them into the nested memory
`memory_id` at `offset`. Same two-tier outcome shape as `memory_get`.
Returns the outcome and the updated host state (the nested memory lives in
the store). -/
def memory_set {T : Type} (hs : HostState T) (memory : Mem)
    (memory_id offset val_ptr val_len : Nat) : HostCall Nat × HostState T :=
  match hs.sandbox_store with
  | none => (.panicked, hs)
  | some store =>
    match store.memory memory_id with
    | .error e => (.normal (.error e), hs)
    | .ok sandboxed_memory =>
      let len := val_len
      match read_memory memory val_ptr len with
      | .error _ => (.normal (.ok ERR_OUT_OF_BOUNDS), hs)
      | .ok buffer =>
        match SandboxedMemory.write_from sandboxed_memory offset buffer with
        | .error _ => (.normal (.ok ERR_OUT_OF_BOUNDS), hs)
        | .ok m2 =>
          (.normal (.ok ERR_OK),
            { hs with sandbox_store := some (store.withMemory memory_id m2) })

/-- `sp_wasm_interface::Value`: a typed wasm value carried across the
boundary (the spec treats the codec as opaque; only the value's identity
matters here). -/
inductive Value where
  | i32 : Int → Value
  | i64 : Int → Value
  deriving DecidableEq

/-- Outcome of executing a nested instance's export
(`sandbox::SandboxInstance::invoke`, an out-of-scope engine operation):
a returned optional value, an instance-level execution error, or a panic
unwinding out of the nested call. -/
inductive ExecOutcome where
  | ok : Option Value → ExecOutcome
  | err : ExecOutcome
  | panicked : ExecOutcome

/-- `Sandbox::invoke` (`host.rs` lines 201-245). Oracle parameters stand for
the external collaborators: `decodeArgs` is the SCALE decoding of the
argument list, `encodeRet` the SCALE encoding of
`ReturnValue::Value(val)`, and `exec` the engine's execution of the named
export — it receives the full host context (host state and outer memory),
exactly as the Rust `SandboxContext { host_context: self, .. }` hands
`self` to the nested call, and returns the outcome together with the
updated context. Note the sandbox store is looked up but never moved out of
the host state here. -/
def invoke {T : Type}
    (decodeArgs : List UInt8 → Option (List Value))
    (encodeRet : Value → List UInt8)
    (exec : String → List Value → Nat → HostState T × Mem →
      ExecOutcome × HostState T × Mem)
    (hs : HostState T) (memory : Mem)
    (instance_id : Nat) (export_name : String) (args : List UInt8)
    (return_val return_val_len : Nat) (state : Nat) :
    HostCall Nat × HostState T × Mem :=
  match decodeArgs args with
  | none => (.normal (.error "Can't decode serialized arguments for the invocation"),
      hs, memory)
  | some argVals =>
    match hs.sandbox_store with
    | none => (.panicked, hs, memory)
    | some store =>
      match store.instanceLookup instance_id with
      | .error e => (.normal (.error e), hs, memory)
      | .ok _inst =>
        match store.dispatch_thunk instance_id with
        | .error e => (.normal (.error e), hs, memory)
        | .ok _thunk =>
          match exec export_name argVals state (hs, memory) with
          | (.panicked, hs2, mem2) => (.panicked, hs2, mem2)
          | (.err, hs2, mem2) => (.normal (.ok ERR_EXECUTION), hs2, mem2)
          | (.ok none, hs2, mem2) => (.normal (.ok ERR_OK), hs2, mem2)
          | (.ok (some val), hs2, mem2) =>
            let encoded := encodeRet val
            if encoded.length > return_val_len then
              (.normal (.error "Return value buffer is too small"), hs2, mem2)
            else
              match write_memory_from mem2 return_val encoded with
              | .error _ => (.normal (.error "can't write return value"), hs2, mem2)
              | .ok mem3 => (.normal (.ok ERR_OK), hs2, mem3)

/-- `wasmedge_sdk::types::Val` restricted to what the table-slot match in
`instance_new` distinguishes: a (possibly null) function reference, or any
other value kind. -/
inductive Val (T : Type) where
  | funcRef : Option T → Val T
  | other : Val T
  deriving DecidableEq

/-- Outcome of `sandbox::Store::instantiate` (out-of-scope engine and
sandbox-store code): a pending instance, a trapped start function, any other
instantiation error, or a panic unwinding out of the nested instantiation. -/
inductive InstantiateOutcome where
  | ok : UnregisteredInstance → InstantiateOutcome
  | startTrapped : InstantiateOutcome
  | otherError : InstantiateOutcome
  | panicked : InstantiateOutcome

/-- `Sandbox::instance_new` (`host.rs` lines 253-311). Oracle parameters:
`decodeGuestEnv` is `sandbox::GuestEnvironment::decode` (SCALE codec,
produces an opaque `G`), `instantiate` is `sandbox::Store::instantiate` —
it receives the locally moved-out store and the remaining host context
(whose `sandbox_store` slot the caller has set to `none`, the "borrowed"
sentinel) and returns the outcome with the updated store and context.
The embedding mirrors the source's order: resolve the table slot, decode
the guest environment, take the store out, instantiate under a panic guard,
put the store back, then re-raise a caught panic or map the outcome. -/
def instance_new {T G : Type}
    (decodeGuestEnv : Store T → List UInt8 → Option G)
    (instantiate : List UInt8 → G → Nat → Store T → HostState T × Mem →
      InstantiateOutcome × Store T × HostState T × Mem)
    (table : Option (List (Val T)))
    (hs : HostState T) (memory : Mem)
    (dispatch_thunk_id : Nat) (wasm : List UInt8) (raw_env_def : List UInt8)
    (state : Nat) : HostCall Nat × HostState T × Mem :=
  match table with
  | none => (.normal (.error "Runtime doesn't have a table; sandbox is unavailable"),
      hs, memory)
  | some t =>
    match t[dispatch_thunk_id]? with
    | none => (.normal (.error "dispatch_thunk_id is out of bounds"), hs, memory)
    | some (Val.funcRef none) =>
      (.normal (.error "dispatch_thunk_id should point to actual func"), hs, memory)
    | some Val.other =>
      (.normal (.error "dispatch_thunk_id should point to actual func"), hs, memory)
    | some (Val.funcRef (some dispatch_thunk)) =>
      match hs.sandbox_store with
      | none => (.panicked, hs, memory)
      | some store0 =>
        match decodeGuestEnv store0 raw_env_def with
        | none => (.normal (.ok ERR_MODULE), hs, memory)
        | some guest_env =>
          match instantiate wasm guest_env state store0
              ({ hs with sandbox_store := none }, memory) with
          | (outcome, store1, hs1, mem1) =>
            let hs2 : HostState T := { hs1 with sandbox_store := some store1 }
            match outcome with
            | .panicked => (.panicked, hs2, mem1)
            | .startTrapped => (.normal (.ok ERR_EXECUTION), hs2, mem1)
            | .otherError => (.normal (.ok ERR_MODULE), hs2, mem1)
            | .ok inst =>
              match hs2.sandbox_store with
              | none => (.panicked, hs2, mem1)
              | some store2 =>
                match inst.register store2 dispatch_thunk with
                | (idx, store3) =>
                  (.normal (.ok idx),
                    { hs2 with sandbox_store := some store3 }, mem1)

/-- `wasmedge_sdk::WasmValue` restricted to the 32- and 64-bit integer
values the dispatch protocol uses. -/
inductive WasmValue where
  | i32 : Int → WasmValue
  | i64 : Int → WasmValue
  deriving DecidableEq

/-- `WasmValue::to_i64`: the 64-bit integer carried by the value. -/
def WasmValue.to_i64 : WasmValue → Int
  | .i32 v => v
  | .i64 v => v

/-- The Rust `as i32` cast of an unsigned machine integer: reduce modulo
`2^32` and reinterpret as a signed 32-bit value. -/
def toSigned32 (n : Nat) : Int :=
  if n % 4294967296 < 2147483648 then ((n % 4294967296 : Nat) : Int)
  else ((n % 4294967296 : Nat) : Int) - 4294967296

/-- Outcome of the dispatch-thunk callback: a normal `Result<i64>` or a
panic. -/
inductive DispatchResult where
  | normal : Except String Int → DispatchResult
  | panicked : DispatchResult

/-- `SandboxContext::invoke` (`host.rs` lines 331-356). Oracles:
`executorNew` is `Executor::new(None, None)`, `call` is the engine's
invocation of the captured dispatch thunk as a function of the argument
list it is given. The source builds exactly four `i32` arguments — args
pointer, args length, user-state token, supervisor function index — and on
success reads `result[0]`, which panics when the engine returned no
values; an engine error is propagated with its own message. -/
def SandboxContext.invoke
    (executorNew : Except String Unit)
    (call : List WasmValue → Except String (List WasmValue))
    (invoke_args_ptr invoke_args_len state func_idx : Nat) : DispatchResult :=
  match executorNew with
  | .error e =>
    .normal (.error ("fail to create a WasmEdge Executor context: " ++ e))
  | .ok _ =>
    match call [WasmValue.i32 (toSigned32 invoke_args_ptr),
                WasmValue.i32 (toSigned32 invoke_args_len),
                WasmValue.i32 (toSigned32 state),
                WasmValue.i32 (toSigned32 func_idx)] with
    | .ok [] => .panicked
    | .ok (v :: _) => .normal (.ok v.to_i64)
    | .error err => .normal (.error err)

/-! ## Claims -/

/-- Claim C9: `register_panic_error_message(message)` stores the message in
Host State's `panic_message` slot and returns normally (it is a total state
update with no error and no panic outcome); a subsequent
`take_panic_message` returns that message and leaves the slot empty
(`none`), so a second take returns `none`. -/
theorem claim_C9_register_panic_message_then_take {T : Type}
    (hs : HostState T) (message : String) :
    (register_panic_error_message hs message).panic_message = some message ∧
    (take_panic_message (register_panic_error_message hs message)).1 = some message ∧
    (take_panic_message (register_panic_error_message hs message)).2.panic_message = none ∧
    (take_panic_message
      (take_panic_message (register_panic_error_message hs message)).2).1 = none :=
  ⟨rfl, rfl, rfl, rfl⟩

/-- Claim C3: on a registered memory id, `memory_get` and `memory_set`
return `ERR_OUT_OF_BOUNDS` as an ordinary `Ok` value (never a hard error)
whenever the nested range `(offset, len)` or the outer range
(`buf_ptr`/`val_ptr`, len) is out of bounds, and when both ranges are in
bounds they perform the copy and return `ERR_OK`. -/
theorem claim_C3_memory_get_set_bounds {T : Type} (hs : HostState T) (memory : Mem)
    (store : Store T) (m : Mem)
    (memory_id offset buf_ptr buf_len val_ptr val_len : Nat)
    (hstore : hs.sandbox_store = some store)
    (hmem : store.memory memory_id = .ok m) :
    ((m.length < offset + buf_len ∨ memory.length < buf_ptr + buf_len) →
      memory_get hs memory memory_id offset buf_ptr buf_len =
        (.normal (.ok ERR_OUT_OF_BOUNDS), memory)) ∧
    (offset + buf_len ≤ m.length → buf_ptr + buf_len ≤ memory.length →
      memory_get hs memory memory_id offset buf_ptr buf_len =
        (.normal (.ok ERR_OK),
          memory.take buf_ptr ++ (m.drop offset).take buf_len ++
            memory.drop (buf_ptr + buf_len))) ∧
    ((m.length < offset + val_len ∨ memory.length < val_ptr + val_len) →
      memory_set hs memory memory_id offset val_ptr val_len =
        (.normal (.ok ERR_OUT_OF_BOUNDS), hs)) ∧
    (offset + val_len ≤ m.length → val_ptr + val_len ≤ memory.length →
      memory_set hs memory memory_id offset val_ptr val_len =
        (.normal (.ok ERR_OK),
          { hs with sandbox_store := some (store.withMemory memory_id
              (m.take offset ++ (memory.drop val_ptr).take val_len ++
                m.drop (offset + val_len))) })) := by
  have hgetlen : ((m.drop offset).take buf_len).length = min buf_len (m.length - offset) := by
    rw [List.length_take, List.length_drop]
  have hsetlen : ((memory.drop val_ptr).take val_len).length
      = min val_len (memory.length - val_ptr) := by
    rw [List.length_take, List.length_drop]
  refine ⟨?_, ?_, ?_, ?_⟩
  · intro h
    simp only [memory_get, hstore, hmem, SandboxedMemory.read, read_memory,
      write_memory_from]
    by_cases h1 : offset + buf_len ≤ m.length
    · rw [if_pos h1]
      simp only []
      rw [if_neg (by rw [hgetlen]; omega)]
    · rw [if_neg h1]
  · intro h1 h2
    simp only [memory_get, hstore, hmem, SandboxedMemory.read, read_memory,
      write_memory_from]
    rw [if_pos h1]
    simp only []
    rw [if_pos (by rw [hgetlen]; omega)]
    have hmin : min buf_len (m.length - offset) = buf_len := by omega
    rw [hgetlen, hmin]
  · intro h
    simp only [memory_set, hstore, hmem, SandboxedMemory.write_from, read_memory,
      write_memory_from]
    by_cases h1 : val_ptr + val_len ≤ memory.length
    · rw [if_pos h1]
      simp only []
      rw [if_neg (by rw [hsetlen]; omega)]
    · rw [if_neg h1]
  · intro h1 h2
    simp only [memory_set, hstore, hmem, SandboxedMemory.write_from, read_memory,
      write_memory_from]
    rw [if_pos h2]
    simp only []
    rw [if_pos (by rw [hsetlen]; omega)]
    have : min val_len (memory.length - val_ptr) = val_len := by omega
    rw [hsetlen, this]

/-- Witness for C3: a concrete store holding one 4-byte nested memory, an
8-byte outer memory, both ranges in bounds for a 2-byte `memory_get`. -/
theorem claim_C3_witness :
    ((⟨some ⟨[some [10, 20, 30, 40]], []⟩, (), none⟩ : HostState Nat).sandbox_store
        = some ⟨[some [10, 20, 30, 40]], []⟩) ∧
    ((⟨[some [10, 20, 30, 40]], []⟩ : Store Nat).memory 0 = .ok [10, 20, 30, 40]) ∧
    memory_get (⟨some ⟨[some [10, 20, 30, 40]], []⟩, (), none⟩ : HostState Nat)
        [0, 0, 0, 0, 0, 0, 0, 0] 0 1 3 2 =
      (.normal (.ok ERR_OK),
        ([0, 0, 0, 0, 0, 0, 0, 0] : Mem).take 3 ++
          (([10, 20, 30, 40] : Mem).drop 1).take 2 ++
          ([0, 0, 0, 0, 0, 0, 0, 0] : Mem).drop (3 + 2)) := by
  refine ⟨rfl, rfl, ?_⟩
  exact (claim_C3_memory_get_set_bounds
    (⟨some ⟨[some [10, 20, 30, 40]], []⟩, (), none⟩ : HostState Nat)
    [0, 0, 0, 0, 0, 0, 0, 0] ⟨[some [10, 20, 30, 40]], []⟩ [10, 20, 30, 40]
    0 1 3 2 0 0 rfl rfl).2.1 (by decide) (by decide)

/-- Claim C4: on a registered instance with decodable arguments, a failure
of the nested export execution makes `invoke` return `ERR_EXECUTION` as an
ordinary `Ok` value; it is never propagated as a hard error (the equality
holds for every such execution failure, whatever the engine did). -/
theorem claim_C4_invoke_execution_failure_status {T : Type}
    (decodeArgs : List UInt8 → Option (List Value))
    (encodeRet : Value → List UInt8)
    (exec : String → List Value → Nat → HostState T × Mem →
      ExecOutcome × HostState T × Mem)
    (hs : HostState T) (memory : Mem)
    (instance_id : Nat) (export_name : String) (args : List UInt8)
    (return_val return_val_len state : Nat)
    {store : Store T} {argVals : List Value} {inst : SandboxInstance T} {thunk : T}
    {hs2 : HostState T} {mem2 : Mem}
    (hdec : decodeArgs args = some argVals)
    (hstore : hs.sandbox_store = some store)
    (hinst : store.instanceLookup instance_id = .ok inst)
    (hthunk : store.dispatch_thunk instance_id = .ok thunk)
    (hexec : exec export_name argVals state (hs, memory) = (ExecOutcome.err, hs2, mem2)) :
    invoke decodeArgs encodeRet exec hs memory instance_id export_name args
      return_val return_val_len state = (.normal (.ok ERR_EXECUTION), hs2, mem2) := by
  simp only [invoke, hdec, hstore, hinst, hthunk, hexec]

/-- Witness for C4: a one-instance store; the engine oracle fails the
export execution; `invoke` returns `Ok ERR_EXECUTION`. -/
theorem claim_C4_witness :
    ((fun (_ : List UInt8) => some ([] : List Value)) [] = some ([] : List Value)) ∧
    ((⟨some ⟨[], [some ⟨0, 5⟩]⟩, (), none⟩ : HostState Nat).sandbox_store
      = some ⟨[], [some ⟨0, 5⟩]⟩) ∧
    ((⟨[], [some ⟨0, 5⟩]⟩ : Store Nat).instanceLookup 0 = .ok ⟨0, 5⟩) ∧
    ((⟨[], [some ⟨0, 5⟩]⟩ : Store Nat).dispatch_thunk 0 = .ok 5) ∧
    invoke (fun _ => some []) (fun _ => [])
      (fun _ _ _ ctx => (ExecOutcome.err, ctx.1, ctx.2))
      (⟨some ⟨[], [some ⟨0, 5⟩]⟩, (), none⟩ : HostState Nat) [] 0 "f" [] 0 0 0 =
      (.normal (.ok ERR_EXECUTION),
        (⟨some ⟨[], [some ⟨0, 5⟩]⟩, (), none⟩ : HostState Nat), ([] : Mem)) := by
  refine ⟨rfl, rfl, rfl, rfl, ?_⟩
  exact claim_C4_invoke_execution_failure_status
    (fun _ => some []) (fun _ => []) (fun _ _ _ ctx => (ExecOutcome.err, ctx.1, ctx.2))
    (⟨some ⟨[], [some ⟨0, 5⟩]⟩, (), none⟩ : HostState Nat) [] 0 "f" [] 0 0 0
    rfl rfl rfl rfl rfl

/-- Counterexample for C5: at a concrete input whose return value encodes to
9 bytes against a 4-byte buffer, `invoke` propagates the hard string error
"Return value buffer is too small" — it does not return a numeric status
code as an ordinary value as the claim asserts. -/
theorem claim_C5_counterexample :
    (invoke (fun _ => some []) (fun _ => [0, 0, 0, 0, 0, 0, 0, 0, 0])
        (fun _ _ _ ctx => (ExecOutcome.ok (some (Value.i64 0)), ctx.1, ctx.2))
        (⟨some ⟨[], [some ⟨0, 5⟩]⟩, (), none⟩ : HostState Nat)
        (List.replicate 16 0) 0 "f" [] 0 4 0 =
      (.normal (.error "Return value buffer is too small"),
        (⟨some ⟨[], [some ⟨0, 5⟩]⟩, (), none⟩ : HostState Nat),
        (List.replicate 16 0 : Mem))) ∧
    ∀ c : Nat,
      (invoke (fun _ => some []) (fun _ => [0, 0, 0, 0, 0, 0, 0, 0, 0])
        (fun _ _ _ ctx => (ExecOutcome.ok (some (Value.i64 0)), ctx.1, ctx.2))
        (⟨some ⟨[], [some ⟨0, 5⟩]⟩, (), none⟩ : HostState Nat)
        (List.replicate 16 0) 0 "f" [] 0 4 0).1 ≠ HostCall.normal (.ok c) := by
  constructor
  · rfl
  · intro c h
    have he : (invoke (fun _ => some []) (fun _ => [0, 0, 0, 0, 0, 0, 0, 0, 0])
        (fun _ _ _ ctx => (ExecOutcome.ok (some (Value.i64 0)), ctx.1, ctx.2))
        (⟨some ⟨[], [some ⟨0, 5⟩]⟩, (), none⟩ : HostState Nat)
        (List.replicate 16 0) 0 "f" [] 0 4 0).1 =
        HostCall.normal (.error "Return value buffer is too small") := rfl
    rw [he] at h
    simp at h

/-- Claim C5 (amended): when the encoded return value is larger than
`return_val_len`, `invoke` fails with the hard string-carrying error
"Return value buffer is too small"; the buffer-too-small outcome is not
converted to a numeric status code. -/
theorem claim_C5_amended_buffer_too_small_hard_error {T : Type}
    (decodeArgs : List UInt8 → Option (List Value))
    (encodeRet : Value → List UInt8)
    (exec : String → List Value → Nat → HostState T × Mem →
      ExecOutcome × HostState T × Mem)
    (hs : HostState T) (memory : Mem)
    (instance_id : Nat) (export_name : String) (args : List UInt8)
    (return_val return_val_len state : Nat)
    {store : Store T} {argVals : List Value} {inst : SandboxInstance T} {thunk : T}
    {hs2 : HostState T} {mem2 : Mem} {val : Value}
    (hdec : decodeArgs args = some argVals)
    (hstore : hs.sandbox_store = some store)
    (hinst : store.instanceLookup instance_id = .ok inst)
    (hthunk : store.dispatch_thunk instance_id = .ok thunk)
    (hexec : exec export_name argVals state (hs, memory)
      = (ExecOutcome.ok (some val), hs2, mem2))
    (hlen : return_val_len < (encodeRet val).length) :
    invoke decodeArgs encodeRet exec hs memory instance_id export_name args
      return_val return_val_len state =
      (.normal (.error "Return value buffer is too small"), hs2, mem2) := by
  simp only [invoke, hdec, hstore, hinst, hthunk, hexec]
  rw [if_pos hlen]

/-- Witness for C5 (amended): a 9-byte encoded return value against a
4-byte buffer yields the hard buffer-too-small error. -/
theorem claim_C5_witness :
    ((fun (_ : List UInt8) => some ([] : List Value)) [] = some ([] : List Value)) ∧
    ((⟨some ⟨[], [some ⟨1, 9⟩]⟩, (), none⟩ : HostState Nat).sandbox_store
      = some ⟨[], [some ⟨1, 9⟩]⟩) ∧
    ((⟨[], [some ⟨1, 9⟩]⟩ : Store Nat).instanceLookup 0 = .ok ⟨1, 9⟩) ∧
    ((⟨[], [some ⟨1, 9⟩]⟩ : Store Nat).dispatch_thunk 0 = .ok 9) ∧
    (4 < ((fun (_ : Value) => ([0, 0, 0, 0, 0, 0, 0, 0, 0] : List UInt8))
        (Value.i64 0)).length) ∧
    invoke (fun _ => some []) (fun _ => [0, 0, 0, 0, 0, 0, 0, 0, 0])
      (fun _ _ _ ctx => (ExecOutcome.ok (some (Value.i64 0)), ctx.1, ctx.2))
      (⟨some ⟨[], [some ⟨1, 9⟩]⟩, (), none⟩ : HostState Nat) [] 0 "g" [] 0 4 0 =
      (.normal (.error "Return value buffer is too small"),
        (⟨some ⟨[], [some ⟨1, 9⟩]⟩, (), none⟩ : HostState Nat), ([] : Mem)) := by
  refine ⟨rfl, rfl, rfl, rfl, by decide, ?_⟩
  exact claim_C5_amended_buffer_too_small_hard_error
    (fun _ => some []) (fun _ => [0, 0, 0, 0, 0, 0, 0, 0, 0])
    (fun _ _ _ ctx => (ExecOutcome.ok (some (Value.i64 0)), ctx.1, ctx.2))
    (⟨some ⟨[], [some ⟨1, 9⟩]⟩, (), none⟩ : HostState Nat) [] 0 "g" [] 0 4 0
    rfl rfl rfl rfl rfl (by decide)

/-- Claim C8: when the encoded return value is larger than
`return_val_len`, `invoke` fails and the outer memory is exactly the memory
as the nested execution left it — the size check comes before any write, so
the return-value path writes no bytes at `return_val`. -/
theorem claim_C8_buffer_too_small_no_partial_write {T : Type}
    (decodeArgs : List UInt8 → Option (List Value))
    (encodeRet : Value → List UInt8)
    (exec : String → List Value → Nat → HostState T × Mem →
      ExecOutcome × HostState T × Mem)
    (hs : HostState T) (memory : Mem)
    (instance_id : Nat) (export_name : String) (args : List UInt8)
    (return_val return_val_len state : Nat)
    {store : Store T} {argVals : List Value} {inst : SandboxInstance T} {thunk : T}
    {hs2 : HostState T} {mem2 : Mem} {val : Value}
    (hdec : decodeArgs args = some argVals)
    (hstore : hs.sandbox_store = some store)
    (hinst : store.instanceLookup instance_id = .ok inst)
    (hthunk : store.dispatch_thunk instance_id = .ok thunk)
    (hexec : exec export_name argVals state (hs, memory)
      = (ExecOutcome.ok (some val), hs2, mem2))
    (hlen : return_val_len < (encodeRet val).length) :
    (invoke decodeArgs encodeRet exec hs memory instance_id export_name args
        return_val return_val_len state).2.2 = mem2 ∧
    ∃ e : String,
      (invoke decodeArgs encodeRet exec hs memory instance_id export_name args
        return_val return_val_len state).1 = HostCall.normal (.error e) := by
  simp only [invoke, hdec, hstore, hinst, hthunk, hexec]
  rw [if_pos hlen]
  exact ⟨rfl, "Return value buffer is too small", rfl⟩

/-- Witness for C8: same concrete configuration as C5 but a nonempty outer
memory, checking the memory comes back untouched. -/
theorem claim_C8_witness :
    ((fun (_ : List UInt8) => some ([] : List Value)) [] = some ([] : List Value)) ∧
    ((⟨some ⟨[], [some ⟨2, 3⟩]⟩, (), none⟩ : HostState Nat).sandbox_store
      = some ⟨[], [some ⟨2, 3⟩]⟩) ∧
    ((⟨[], [some ⟨2, 3⟩]⟩ : Store Nat).instanceLookup 0 = .ok ⟨2, 3⟩) ∧
    ((⟨[], [some ⟨2, 3⟩]⟩ : Store Nat).dispatch_thunk 0 = .ok 3) ∧
    (1 < ((fun (_ : Value) => ([7, 7] : List UInt8)) (Value.i32 5)).length) ∧
    ((invoke (fun _ => some []) (fun _ => [7, 7])
        (fun _ _ _ ctx => (ExecOutcome.ok (some (Value.i32 5)), ctx.1, ctx.2))
        (⟨some ⟨[], [some ⟨2, 3⟩]⟩, (), none⟩ : HostState Nat)
        [9, 9, 9, 9] 0 "h" [] 0 1 0).2.2 = ([9, 9, 9, 9] : Mem) ∧
      ∃ e : String,
        (invoke (fun _ => some []) (fun _ => [7, 7])
          (fun _ _ _ ctx => (ExecOutcome.ok (some (Value.i32 5)), ctx.1, ctx.2))
          (⟨some ⟨[], [some ⟨2, 3⟩]⟩, (), none⟩ : HostState Nat)
          [9, 9, 9, 9] 0 "h" [] 0 1 0).1 = HostCall.normal (.error e)) := by
  refine ⟨rfl, rfl, rfl, rfl, by decide, ?_⟩
  exact claim_C8_buffer_too_small_no_partial_write
    (fun _ => some []) (fun _ => [7, 7])
    (fun _ _ _ ctx => (ExecOutcome.ok (some (Value.i32 5)), ctx.1, ctx.2))
    (⟨some ⟨[], [some ⟨2, 3⟩]⟩, (), none⟩ : HostState Nat) [9, 9, 9, 9] 0 "h" [] 0 1 0
    rfl rfl rfl rfl rfl (by decide)

/-- Counterexample for C6: a nested execution that records in the panic
message whether the Sandbox Store slot of Host State is occupied observes
"store present" — during `invoke` the store is *not* moved out and no
borrowed sentinel (`none`) is left, contrary to the claim. -/
theorem claim_C6_counterexample :
    (invoke (fun _ => some []) (fun _ => [])
      (fun _ _ _ (ctx : HostState Nat × Mem) =>
        (ExecOutcome.ok none,
          register_panic_error_message ctx.1
            (if (ctx.1.sandbox_store).isSome then "store present"
              else "store borrowed"), ctx.2))
      (⟨some ⟨[], [some ⟨0, 5⟩]⟩, (), none⟩ : HostState Nat)
      [] 0 "f" [] 0 0 0).2.1.panic_message = some "store present" := rfl

/-- Claim C6 (amended): during an `invoke` call the Sandbox Store is never
moved out of Host State: the nested export execution observes the Host
State exactly as `invoke` received it, with the original store still
present (first conjunct, for every observation `g` of the store slot), and
whenever the nested execution preserves store presence, the store is
present in Host State when `invoke` returns or propagates a panic (second
conjunct). Only `instance_new` performs the move-out/restore. -/
theorem claim_C6_amended_store_stays_during_invoke {T : Type}
    (decodeArgs : List UInt8 → Option (List Value))
    (encodeRet : Value → List UInt8)
    (hs : HostState T) (memory : Mem)
    (instance_id : Nat) (export_name : String) (args : List UInt8)
    (return_val return_val_len state : Nat)
    {store : Store T} {argVals : List Value} {inst : SandboxInstance T} {thunk : T}
    (hdec : decodeArgs args = some argVals)
    (hstore : hs.sandbox_store = some store)
    (hinst : store.instanceLookup instance_id = .ok inst)
    (hthunk : store.dispatch_thunk instance_id = .ok thunk) :
    (∀ g : Option (Store T) → String,
      (invoke decodeArgs encodeRet
        (fun _ _ _ (ctx : HostState T × Mem) =>
          (ExecOutcome.ok none,
            register_panic_error_message ctx.1 (g ctx.1.sandbox_store), ctx.2))
        hs memory instance_id export_name args return_val return_val_len
        state).2.1.panic_message = some (g (some store))) ∧
    (∀ exec : String → List Value → Nat → HostState T × Mem →
        ExecOutcome × HostState T × Mem,
      (∀ (n : String) (a : List Value) (s : Nat) (ctx : HostState T × Mem),
        (((exec n a s ctx).2.1).sandbox_store).isSome
          = ((ctx.1).sandbox_store).isSome) →
      (((invoke decodeArgs encodeRet exec hs memory instance_id export_name args
          return_val return_val_len state).2.1).sandbox_store).isSome = true) := by
  constructor
  · intro g
    simp only [invoke, hdec, hstore, hinst, hthunk, register_panic_error_message]
  · intro exec hpres
    have hp := hpres export_name argVals state (hs, memory)
    simp only [invoke, hdec, hstore, hinst, hthunk]
    cases hE : exec export_name argVals state (hs, memory) with
    | mk outcome rest =>
      cases rest with
      | mk hs2 mem2 =>
        simp only [hE, hstore, Option.isSome_some] at hp
        cases outcome with
        | panicked => simpa using hp
        | err => simpa using hp
        | ok ov =>
          cases ov with
          | none => simpa using hp
          | some val =>
            by_cases hl : return_val_len < (encodeRet val).length
            · simpa [hl] using hp
            · cases hw : write_memory_from mem2 return_val (encodeRet val) with
              | error e => simpa [hl, hw] using hp
              | ok mem3 => simpa [hl, hw] using hp

/-- Witness for C6 (amended): concrete one-instance store; the nested
execution observes the store slot occupied by the original store. -/
theorem claim_C6_witness :
    ((fun (_ : List UInt8) => some ([] : List Value)) [] = some ([] : List Value)) ∧
    ((⟨some ⟨[], [some ⟨0, 8⟩]⟩, (), none⟩ : HostState Nat).sandbox_store
      = some ⟨[], [some ⟨0, 8⟩]⟩) ∧
    ((⟨[], [some ⟨0, 8⟩]⟩ : Store Nat).instanceLookup 0 = .ok ⟨0, 8⟩) ∧
    ((⟨[], [some ⟨0, 8⟩]⟩ : Store Nat).dispatch_thunk 0 = .ok 8) ∧
    (invoke (fun _ => some []) (fun _ => [])
      (fun _ _ _ (ctx : HostState Nat × Mem) =>
        (ExecOutcome.ok none,
          register_panic_error_message ctx.1
            ((fun o : Option (Store Nat) =>
              if o.isSome then "occupied" else "sentinel") ctx.1.sandbox_store),
          ctx.2))
      (⟨some ⟨[], [some ⟨0, 8⟩]⟩, (), none⟩ : HostState Nat)
      [] 0 "w" [] 0 0 0).2.1.panic_message =
      some ((fun o : Option (Store Nat) =>
        if o.isSome then "occupied" else "sentinel") (some ⟨[], [some ⟨0, 8⟩]⟩)) := by
  refine ⟨rfl, rfl, rfl, rfl, ?_⟩
  exact (claim_C6_amended_store_stays_during_invoke
    (fun _ => some []) (fun _ => [])
    (⟨some ⟨[], [some ⟨0, 8⟩]⟩, (), none⟩ : HostState Nat) [] 0 "w" [] 0 0 0
    rfl rfl rfl rfl).1
    (fun o : Option (Store Nat) => if o.isSome then "occupied" else "sentinel")

/-- Claim C7: the dispatch protocol invokes the captured thunk with exactly
four 32-bit arguments in this order — serialized-arguments pointer, buffer
length, user-state token, supervisor function index — and on a successful
call producing a single value returns that value's 64-bit reading; any
engine-level invocation failure becomes a hard error carrying the engine's
own message. -/
theorem claim_C7_dispatch_thunk_protocol
    (executorNew : Except String Unit)
    (call : List WasmValue → Except String (List WasmValue))
    (p l s f : Nat)
    (hexec : executorNew = .ok ()) :
    (∀ v : WasmValue,
      call [WasmValue.i32 (toSigned32 p), WasmValue.i32 (toSigned32 l),
            WasmValue.i32 (toSigned32 s), WasmValue.i32 (toSigned32 f)] = .ok [v] →
      SandboxContext.invoke executorNew call p l s f = .normal (.ok v.to_i64)) ∧
    (∀ e : String,
      call [WasmValue.i32 (toSigned32 p), WasmValue.i32 (toSigned32 l),
            WasmValue.i32 (toSigned32 s), WasmValue.i32 (toSigned32 f)] = .error e →
      SandboxContext.invoke executorNew call p l s f = .normal (.error e)) := by
  constructor
  · intro v hv
    simp only [SandboxContext.invoke, hexec, hv]
  · intro e he
    simp only [SandboxContext.invoke, hexec, he]

/-- Witness for C7: a thunk oracle returning the single value `i64 7`; the
dispatch call yields `Ok 7`. Also exercises the error conjunct through a
second, failing oracle. -/
theorem claim_C7_witness :
    ((Except.ok () : Except String Unit) = .ok ()) ∧
    ((fun (_ : List WasmValue) => (Except.ok [WasmValue.i64 7] :
        Except String (List WasmValue)))
      [WasmValue.i32 (toSigned32 1), WasmValue.i32 (toSigned32 2),
       WasmValue.i32 (toSigned32 3), WasmValue.i32 (toSigned32 4)]
      = .ok [WasmValue.i64 7]) ∧
    SandboxContext.invoke (.ok ()) (fun _ => .ok [WasmValue.i64 7]) 1 2 3 4
      = .normal (.ok (WasmValue.i64 7).to_i64) ∧
    SandboxContext.invoke (.ok ()) (fun _ => .error "engine says no") 1 2 3 4
      = .normal (.error "engine says no") := by
  refine ⟨rfl, rfl, ?_, ?_⟩
  · exact (claim_C7_dispatch_thunk_protocol (.ok ())
      (fun _ => .ok [WasmValue.i64 7]) 1 2 3 4 rfl).1 (WasmValue.i64 7) rfl
  · exact (claim_C7_dispatch_thunk_protocol (.ok ())
      (fun _ => .error "engine says no") 1 2 3 4 rfl).2 "engine says no" rfl

/-- Claim C10: when the engine call of the dispatch thunk succeeds but
yields zero return values, `SandboxContext::invoke` reads `result[0]` out
of bounds and panics rather than returning a value or an error. -/
theorem claim_C10_empty_thunk_result_panics
    (executorNew : Except String Unit)
    (call : List WasmValue → Except String (List WasmValue))
    (p l s f : Nat)
    (hexec : executorNew = .ok ())
    (hcall : call [WasmValue.i32 (toSigned32 p), WasmValue.i32 (toSigned32 l),
        WasmValue.i32 (toSigned32 s), WasmValue.i32 (toSigned32 f)] = .ok []) :
    SandboxContext.invoke executorNew call p l s f = .panicked := by
  simp only [SandboxContext.invoke, hexec, hcall]

/-- Witness for C10: an engine oracle that always returns an empty result
list makes the dispatch callback panic. -/
theorem claim_C10_witness :
    ((Except.ok () : Except String Unit) = .ok ()) ∧
    ((fun (_ : List WasmValue) => (Except.ok [] : Except String (List WasmValue)))
      [WasmValue.i32 (toSigned32 0), WasmValue.i32 (toSigned32 0),
       WasmValue.i32 (toSigned32 0), WasmValue.i32 (toSigned32 0)] = .ok []) ∧
    SandboxContext.invoke (.ok ()) (fun _ => .ok []) 0 0 0 0 = .panicked := by
  refine ⟨rfl, rfl, ?_⟩
  exact claim_C10_empty_thunk_result_panics (.ok ()) (fun _ => .ok []) 0 0 0 0 rfl rfl

/-- Claim C1: on every exit of `instance_new` — a fresh instance id, a
status code, a hard error, or a propagated panic raised inside the nested
instantiation — the Sandbox Store is present in Host State exactly once
(the `Option` slot is `some`): the store taken out before instantiation is
put back on every path, including the panic path before the panic is
re-raised. Holds for every behaviour of the instantiation oracle. -/
theorem claim_C1_instance_new_store_restored {T G : Type}
    (decodeGuestEnv : Store T → List UInt8 → Option G)
    (instantiate : List UInt8 → G → Nat → Store T → HostState T × Mem →
      InstantiateOutcome × Store T × HostState T × Mem)
    (table : Option (List (Val T)))
    (hs : HostState T) (memory : Mem)
    (dispatch_thunk_id : Nat) (wasm raw_env_def : List UInt8) (state : Nat)
    (h : (hs.sandbox_store).isSome = true) :
    (((instance_new decodeGuestEnv instantiate table hs memory dispatch_thunk_id
        wasm raw_env_def state).2.1).sandbox_store).isSome = true := by
  cases table with
  | none => simpa [instance_new] using h
  | some t =>
    cases ht : t[dispatch_thunk_id]? with
    | none => simpa [instance_new, ht] using h
    | some v =>
      cases v with
      | other => simpa [instance_new, ht] using h
      | funcRef o =>
        cases o with
        | none => simpa [instance_new, ht] using h
        | some thunk =>
          cases hst : hs.sandbox_store with
          | none => simp [hst] at h
          | some store0 =>
            cases hdec : decodeGuestEnv store0 raw_env_def with
            | none => simp [instance_new, ht, hst, hdec]
            | some env =>
              cases hI : instantiate wasm env state store0
                  ({ hs with sandbox_store := none }, memory) with
              | mk outcome rest =>
                cases rest with
                | mk store1 rest2 =>
                  cases rest2 with
                  | mk hs1 mem1 =>
                    cases outcome with
                    | panicked => simp [instance_new, ht, hst, hdec, hI]
                    | startTrapped => simp [instance_new, ht, hst, hdec, hI]
                    | otherError => simp [instance_new, ht, hst, hdec, hI]
                    | ok inst =>
                      simp [instance_new, ht, hst, hdec, hI,
                        UnregisteredInstance.register]

/-- Witness for C1: the instantiation oracle panics; `instance_new`
re-raises the panic with the store restored into Host State. -/
theorem claim_C1_witness :
    (((⟨some ⟨[], []⟩, (), none⟩ : HostState Nat).sandbox_store).isSome = true) ∧
    (((instance_new (fun _ _ => some ()) (fun _ _ _ st ctx =>
          (InstantiateOutcome.panicked, st, ctx.1, ctx.2))
        (some [Val.funcRef (some 5)])
        (⟨some ⟨[], []⟩, (), none⟩ : HostState Nat) [] 0 [] [] 0).2.1).sandbox_store).isSome
      = true := by
  refine ⟨rfl, ?_⟩
  exact claim_C1_instance_new_store_restored (fun _ _ => some ())
    (fun _ _ _ st ctx => (InstantiateOutcome.panicked, st, ctx.1, ctx.2))
    (some [Val.funcRef (some 5)]) (⟨some ⟨[], []⟩, (), none⟩ : HostState Nat)
    [] 0 [] [] 0 rfl

/-- Claim C2: outcome mapping of `instance_new`: no table, or a table slot
that is not an actual function reference, is a hard string error; a guest
environment decode failure returns `ERR_MODULE` as an ordinary `Ok` value;
successful instantiation registers the instance (it is found in the final
store under the returned id, with the captured thunk) and returns its id;
a trapped start function returns `ERR_EXECUTION`; any other instantiation
failure returns `ERR_MODULE`. -/
theorem claim_C2_instance_new_outcome_mapping {T G : Type}
    (decodeGuestEnv : Store T → List UInt8 → Option G)
    (instantiate : List UInt8 → G → Nat → Store T → HostState T × Mem →
      InstantiateOutcome × Store T × HostState T × Mem)
    (t : List (Val T)) (hs : HostState T) (memory : Mem)
    (dispatch_thunk_id : Nat) (wasm raw_env_def : List UInt8) (state : Nat)
    (store0 : Store T) (thunk : T)
    (hstore : hs.sandbox_store = some store0) :
    (instance_new decodeGuestEnv instantiate none hs memory dispatch_thunk_id
        wasm raw_env_def state =
      (.normal (.error "Runtime doesn't have a table; sandbox is unavailable"),
        hs, memory)) ∧
    (t[dispatch_thunk_id]? = some Val.other →
      instance_new decodeGuestEnv instantiate (some t) hs memory dispatch_thunk_id
          wasm raw_env_def state =
        (.normal (.error "dispatch_thunk_id should point to actual func"), hs, memory)) ∧
    (t[dispatch_thunk_id]? = some (Val.funcRef none) →
      instance_new decodeGuestEnv instantiate (some t) hs memory dispatch_thunk_id
          wasm raw_env_def state =
        (.normal (.error "dispatch_thunk_id should point to actual func"), hs, memory)) ∧
    (t[dispatch_thunk_id]? = some (Val.funcRef (some thunk)) →
      decodeGuestEnv store0 raw_env_def = none →
      instance_new decodeGuestEnv instantiate (some t) hs memory dispatch_thunk_id
          wasm raw_env_def state =
        (.normal (.ok ERR_MODULE), hs, memory)) ∧
    (∀ (env : G) (inst : UnregisteredInstance) (store1 : Store T)
        (hs1 : HostState T) (mem1 : Mem),
      t[dispatch_thunk_id]? = some (Val.funcRef (some thunk)) →
      decodeGuestEnv store0 raw_env_def = some env →
      instantiate wasm env state store0 ({ hs with sandbox_store := none }, memory)
        = (.ok inst, store1, hs1, mem1) →
      (instance_new decodeGuestEnv instantiate (some t) hs memory dispatch_thunk_id
          wasm raw_env_def state).1 = .normal (.ok store1.instances.length) ∧
      ∃ storeF : Store T,
        ((instance_new decodeGuestEnv instantiate (some t) hs memory
            dispatch_thunk_id wasm raw_env_def state).2.1).sandbox_store
          = some storeF ∧
        storeF.instanceLookup store1.instances.length = .ok ⟨inst.tag, thunk⟩) ∧
    (∀ (env : G) (store1 : Store T) (hs1 : HostState T) (mem1 : Mem),
      t[dispatch_thunk_id]? = some (Val.funcRef (some thunk)) →
      decodeGuestEnv store0 raw_env_def = some env →
      instantiate wasm env state store0 ({ hs with sandbox_store := none }, memory)
        = (.startTrapped, store1, hs1, mem1) →
      instance_new decodeGuestEnv instantiate (some t) hs memory dispatch_thunk_id
          wasm raw_env_def state =
        (.normal (.ok ERR_EXECUTION),
          { hs1 with sandbox_store := some store1 }, mem1)) ∧
    (∀ (env : G) (store1 : Store T) (hs1 : HostState T) (mem1 : Mem),
      t[dispatch_thunk_id]? = some (Val.funcRef (some thunk)) →
      decodeGuestEnv store0 raw_env_def = some env →
      instantiate wasm env state store0 ({ hs with sandbox_store := none }, memory)
        = (.otherError, store1, hs1, mem1) →
      instance_new decodeGuestEnv instantiate (some t) hs memory dispatch_thunk_id
          wasm raw_env_def state =
        (.normal (.ok ERR_MODULE),
          { hs1 with sandbox_store := some store1 }, mem1)) := by
  refine ⟨rfl, ?_, ?_, ?_, ?_, ?_, ?_⟩
  · intro hslot
    simp only [instance_new, hslot]
  · intro hslot
    simp only [instance_new, hslot]
  · intro hslot hdec
    simp only [instance_new, hslot, hstore, hdec]
  · intro env inst store1 hs1 mem1 hslot hdec hI
    constructor
    · simp [instance_new, hslot, hstore, hdec, hI, UnregisteredInstance.register]
    · refine ⟨{ store1 with
        instances := store1.instances ++ [some ⟨inst.tag, thunk⟩] }, ?_, ?_⟩
      · simp [instance_new, hslot, hstore, hdec, hI, UnregisteredInstance.register]
      · simp [Store.instanceLookup, List.getElem?_concat_length]
  · intro env store1 hs1 mem1 hslot hdec hI
    simp only [instance_new, hslot, hstore, hdec, hI]
  · intro env store1 hs1 mem1 hslot hdec hI
    simp only [instance_new, hslot, hstore, hdec, hI]

/-- Witness for C2: a concrete table whose slot 0 holds a function
reference; the instantiation oracle reports a trapped start function, and
`instance_new` answers with `ERR_EXECUTION` as an ordinary value. -/
theorem claim_C2_witness :
    (((⟨some ⟨[], []⟩, (), none⟩ : HostState Nat).sandbox_store) = some ⟨[], []⟩) ∧
    (([Val.funcRef (some 6)] : List (Val Nat))[0]? = some (Val.funcRef (some 6))) ∧
    ((fun (_ : Store Nat) (_ : List UInt8) => some ()) (⟨[], []⟩ : Store Nat) []
      = some ()) ∧
    ((fun (_ : List UInt8) (_ : Unit) (_ : Nat) (st : Store Nat)
        (ctx : HostState Nat × Mem) =>
        (InstantiateOutcome.startTrapped, st, ctx.1, ctx.2))
        [] () 0 (⟨[], []⟩ : Store Nat) ((⟨none, (), none⟩ : HostState Nat), ([] : Mem))
      = (InstantiateOutcome.startTrapped, (⟨[], []⟩ : Store Nat),
          (⟨none, (), none⟩ : HostState Nat), ([] : Mem))) ∧
    instance_new (fun (_ : Store Nat) (_ : List UInt8) => some ())
      (fun (_ : List UInt8) (_ : Unit) (_ : Nat) (st : Store Nat)
        (ctx : HostState Nat × Mem) =>
        (InstantiateOutcome.startTrapped, st, ctx.1, ctx.2))
      (some [Val.funcRef (some 6)])
      (⟨some ⟨[], []⟩, (), none⟩ : HostState Nat) [] 0 [] [] 0 =
      (.normal (.ok ERR_EXECUTION),
        (⟨some ⟨[], []⟩, (), none⟩ : HostState Nat), ([] : Mem)) := by
  refine ⟨rfl, rfl, rfl, rfl, ?_⟩
  exact (claim_C2_instance_new_outcome_mapping
    (fun (_ : Store Nat) (_ : List UInt8) => some ())
    (fun (_ : List UInt8) (_ : Unit) (_ : Nat) (st : Store Nat)
      (ctx : HostState Nat × Mem) =>
      (InstantiateOutcome.startTrapped, st, ctx.1, ctx.2))
    [Val.funcRef (some 6)] (⟨some ⟨[], []⟩, (), none⟩ : HostState Nat) [] 0 [] [] 0
    ⟨[], []⟩ 6 rfl).2.2.2.2.2.1 () ⟨[], []⟩ (⟨none, (), none⟩ : HostState Nat) []
    rfl rfl rfl

end WasmedgeHost
